import Mathlib

/-!
Shallow embedding of the dorm_portal web application (src/app) for checking
its specification. Pure data is modelled with Lean structures; the relational
store, the uploads directory and the background-task queue are explicit state
threaded through each route handler. Calendar dates and timestamps are coded
as natural numbers (only their ordering matters to the routes). Machine-level
concerns that the routes never observe (template rendering, the SMTP wire
protocol, the OAuth handshake) are left abstract, as the specification itself
treats them as external collaborators.
-/

namespace DormPortal

/-- Persistent `DormUser` row (src/app/models.py). On table models the field
metadata is not enforced at construction time, so the structure carries the
raw values. -/
structure DormUser where
  id : Option Nat
  email : String
  name : String
  picture_url : Option String
  created_at : Nat
deriving Repr, DecidableEq

/-- Persistent `Student` row (src/app/models.py). -/
structure Student where
  id : Option Nat
  name : String
  email : String
  created_at : Nat
deriving Repr, DecidableEq

/-- Persistent `DailyReport` row (src/app/models.py). The model declares
`rating` with bounds `ge=1, le=5`, but SQLModel table models skip pydantic
validation on construction, so the structure stores whatever integer the
route passes in; whether the bounds are actually enforced anywhere is exactly
what the rating claims are about. -/
structure DailyReport where
  id : Option Nat
  student_id : Nat
  report_date : Nat
  notes : String
  rating : Option Int
  image_url : Option String
  image_path : Option String
  created_at : Nat
deriving Repr, DecidableEq

/-- The identity record a browser session may hold under the key `user`.
`get_current_user` (src/app/auth.py) reads exactly the four fields below with
`dict.get`, so each is optional; any extra keys the login handlers store
(such as the dev flag) are never read back and are not modelled. -/
structure SessionIdentity where
  id : Option Nat
  email : Option String
  name : Option String
  picture_url : Option String
deriving Repr, DecidableEq

/-- Per-browser session state: at most one stored identity record. -/
structure SessionState where
  user : Option SessionIdentity
deriving Repr, DecidableEq

/-- Result of `require_user_or_redirect` (src/app/auth.py): either the
identity or a redirect response with a target URL and an HTTP status. -/
inductive AuthResult where
  | identity (u : SessionIdentity)
  | redirect (url : String) (status : Nat)
deriving Repr, DecidableEq

/-- Embedding of `get_current_user` (src/app/auth.py lines 33 to 46). The
session either lacks the record (None) or holds it. The `DormUser(...)`
construction in the source cannot raise: SQLModel table models do not run
field validation, so the try/except never fires and the stored fields are
returned as they are. -/
def get_current_user (s : SessionState) : Option SessionIdentity :=
  s.user

/-- Truthiness of an optional string under Python rules: None and the empty
string are falsy. -/
def strTruthy : Option String → Bool
  | none => false
  | some s => !(s == "")

/-- Embedding of `require_user_or_redirect` (src/app/auth.py lines 56 to 60):
`if not user or not user.email` yields a 303 redirect to the login surface,
otherwise the identity is returned. -/
def require_user_or_redirect (s : SessionState) : AuthResult :=
  match get_current_user s with
  | none => AuthResult.redirect "/login" 303
  | some u =>
      if strTruthy u.email then AuthResult.identity u
      else AuthResult.redirect "/login" 303

/-- A session counts as authenticated exactly when the gate yields an
identity rather than a redirect. -/
def isAuthenticated (s : SessionState) : Bool :=
  match require_user_or_redirect s with
  | AuthResult.identity _ => true
  | AuthResult.redirect _ _ => false

/-! String primitives. The embedding realizes the Python string operations
the routes rely on (strip, lower, startswith, split, single-character
replace) over character lists, so that every definition evaluates inside
the kernel. Only ASCII behaviour is relied on, matching the inputs the
routes handle. -/

/-- ASCII whitespace, the characters stripped by `str.strip()` on the
inputs these routes see. -/
def isSpaceChar (c : Char) : Bool :=
  c == ' ' || c == '\t' || c == '\n' || c == '\r'

/-- Embedding of Python `str.strip()`. -/
def pyStrip (s : String) : String :=
  String.mk
    (((s.toList.dropWhile isSpaceChar).reverse.dropWhile isSpaceChar).reverse)

/-- ASCII lowercasing of one character, as `str.lower()` does. -/
def lowerChar (c : Char) : Char :=
  if 'A' ≤ c && c ≤ 'Z' then Char.ofNat (c.toNat + 32) else c

/-- Embedding of Python `str.lower()` (ASCII). -/
def lowerStr (s : String) : String :=
  String.mk (s.toList.map lowerChar)

/-- Character-list prefix test. -/
def charsPrefixB : List Char → List Char → Bool
  | [], _ => true
  | _ :: _, [] => false
  | a :: as, b :: bs => a == b && charsPrefixB as bs

/-- Embedding of Python `str.startswith(p)`. -/
def strPrefixB (p s : String) : Bool :=
  charsPrefixB p.toList s.toList

/-- Splitting on `/`, accumulating the current component; embedding of the
component split `str.split("/")` performs. -/
def splitSlashAux (cur : List Char) : List Char → List String
  | [] => [String.mk cur.reverse]
  | c :: cs =>
      if c == '/' then String.mk cur.reverse :: splitSlashAux [] cs
      else splitSlashAux (c :: cur) cs

/-- Disk paths are component lists. The head component `"BASE"` stands for
the resolved absolute `BASE_DIR` of src/app/main.py; an OS-absolute path
produced by joining with a leading-slash argument has no `"BASE"` head. -/
def splitPath (s : String) : List String :=
  (splitSlashAux [] s.toList).filter (fun c => !(c == ""))

/-- Embedding of pathlib join, `base / rel` (used at src/app/main.py line
205): an absolute right operand replaces the base entirely, otherwise the
components of `rel` are appended. -/
def pathJoin (base : List String) (rel : String) : List String :=
  if strPrefixB "/" rel then splitPath rel else base ++ splitPath rel

/-- OS-level resolution of `.` and `..` components, as performed by the
filesystem when `exists`, `is_file` and `unlink` act on a path. A `..` at the
root stays at the root. -/
def normalizePath (cs : List String) : List String :=
  cs.foldl
    (fun acc c =>
      if c == ".." then acc.dropLast else if c == "." then acc else acc ++ [c])
    []

/-- Components of `UPLOADS_DIR = BASE_DIR/static/uploads`. -/
def uploadsDir : List String := ["BASE", "static", "uploads"]

/-- The set of regular files present on disk, by resolved path, represented
as a duplicate-free list. -/
abbrev FS := List (List String)

/-- Boolean prefix test on component lists. -/
def listPrefixB : List String → List String → Bool
  | [], _ => true
  | _ :: _, [] => false
  | a :: as, b :: bs => a == b && listPrefixB as bs

/-- Boolean test that a resolved path lies under the uploads directory. -/
def underUploads (p : List String) : Bool :=
  listPrefixB uploadsDir p

/-- Embedding of `_try_delete_uploaded_file` (src/app/main.py lines 199 to
211). `fail` is the oracle saying whether the OS raises `OSError` when
unlinking a given resolved path; such a failure is swallowed, so the function
always returns a filesystem (it never raises). A falsy path or a path not
starting with `/uploads/` leaves the filesystem untouched; otherwise the
remainder of the string is joined onto the uploads directory and the
resolved target is unlinked if it is an existing regular file. -/
def try_delete_uploaded_file (fail : List String → Bool) (fs : FS)
    (image_path : Option String) : FS :=
  match image_path with
  | none => fs
  | some p =>
      if p == "" then fs
      else if !(strPrefixB "/uploads/" p) then fs
      else
        let filename := p.drop "/uploads/".length
        let disk := normalizePath (pathJoin uploadsDir filename)
        if fs.contains disk then
          (if fail disk then fs else fs.filter (fun q => !(q == disk)))
        else fs

/-- An uploaded file as the route handlers see it: original filename plus an
opaque content blob. -/
structure Upload where
  filename : String
  content : String
deriving Repr, DecidableEq

/-- Truthiness of `image_file and image_file.filename` in the route bodies. -/
def fileTruthy : Option Upload → Bool
  | none => false
  | some f => !(f.filename == "")

/-- Embedding of `_save_upload` (src/app/main.py lines 316 to 324). `fresh`
stands for the `uuid4().hex` token of this request. Path separators in the
original filename are replaced by underscores, the unique token is prefixed,
the bytes are written under the uploads directory, and the public
`/uploads/...` path is returned. -/
def save_upload (fresh : String) (f : Upload) (fs : FS) : String × FS :=
  let original := String.mk
    ((if f.filename == "" then "upload" else f.filename).toList.map
      (fun c => if c == '/' || c == '\\' then '_' else c))
  let out_name := fresh ++ "_" ++ original
  let disk := uploadsDir ++ [out_name]
  ("/uploads/" ++ out_name,
    if fs.contains disk then fs else fs ++ [disk])

/-- The relational store: the three tables plus the identifier counters the
store uses when assigning primary keys. -/
structure DB where
  users : List DormUser
  students : List Student
  reports : List DailyReport
  nextUserId : Nat
  nextStudentId : Nat
  nextReportId : Nat
deriving Repr, DecidableEq

/-- Primary-key lookup `session.get(Student, student_id)`. -/
def findStudent (db : DB) (sid : Nat) : Option Student :=
  db.students.find? (fun s => s.id == some sid)

/-- Primary-key lookup `session.get(DailyReport, report_id)`. -/
def findReport (db : DB) (rid : Nat) : Option DailyReport :=
  db.reports.find? (fun r => r.id == some rid)

/-- A queued background email task (recipient and subject; the two rendered
bodies are template output and are not inspected by any claim). -/
structure EmailTask where
  to_email : String
  subject : String
deriving Repr, DecidableEq

/-- The whole application state a request handler can touch: the browser
session, the relational store, the uploads filesystem and the queue of
background tasks handed to the fire-and-forget executor. -/
structure AppState where
  session : SessionState
  db : DB
  fs : FS
  background : List EmailTask
deriving DecidableEq

/-- Listing order of reports, `ORDER BY report_date DESC, created_at DESC`
(src/app/main.py lines 256 and 288): `a` may precede `b` when the date of
`a` is later, or the dates agree and `a` was created no earlier. -/
def reportKeyLE (a b : DailyReport) : Prop :=
  b.report_date < a.report_date ∨
    (a.report_date = b.report_date ∧ b.created_at ≤ a.created_at)

instance : DecidableRel reportKeyLE := fun a b => by
  unfold reportKeyLE; exact inferInstance

instance : IsTotal DailyReport reportKeyLE := by
  constructor; intro a b; unfold reportKeyLE; omega

instance : IsTrans DailyReport reportKeyLE := by
  constructor; intro a b c hab hbc; unfold reportKeyLE at *; omega

/-- The report listing produced by `ORDER BY report_date DESC,
created_at DESC`. -/
def sortReports (l : List DailyReport) : List DailyReport :=
  List.insertionSort reportKeyLE l

/-- Student listing order, `ORDER BY created_at DESC` (src/app/main.py line
136). -/
def studentKeyLE (a b : Student) : Prop :=
  b.created_at ≤ a.created_at

instance : DecidableRel studentKeyLE := fun a b => by
  unfold studentKeyLE; exact inferInstance

instance : IsTotal Student studentKeyLE := by
  constructor; intro a b; unfold studentKeyLE; omega

instance : IsTrans Student studentKeyLE := by
  constructor; intro a b c hab hbc; unfold studentKeyLE at *; omega

def sortStudents (l : List Student) : List Student :=
  List.insertionSort studentKeyLE l

/-- Creation-time order used by the send route to pick the newest report of
a given date, `ORDER BY created_at DESC` (src/app/main.py line 480). -/
def createdKeyLE (a b : DailyReport) : Prop :=
  b.created_at ≤ a.created_at

instance : DecidableRel createdKeyLE := fun a b => by
  unfold createdKeyLE; exact inferInstance

instance : IsTotal DailyReport createdKeyLE := by
  constructor; intro a b; unfold createdKeyLE; omega

instance : IsTrans DailyReport createdKeyLE := by
  constructor; intro a b c hab hbc; unfold createdKeyLE at *; omega

def sortByCreated (l : List DailyReport) : List DailyReport :=
  List.insertionSort createdKeyLE l

/-- Character-list substring test. -/
def charsSubB (needle : List Char) : List Char → Bool
  | [] => charsPrefixB needle []
  | c :: t => charsPrefixB needle (c :: t) || charsSubB needle t

/-- Embedding of the SQL `column.contains(q)` filter (src/app/main.py line
135), which compiles to `LIKE` with surrounding wildcards; SQLite `LIKE` is
ASCII case-insensitive by default, so both sides are lowercased. -/
def likeContains (hay needle : String) : Bool :=
  charsSubB (lowerStr needle).toList (lowerStr hay).toList

/-- The visible outcome of a route handler: a redirect response, a rendered
template page carrying the data handed to the template, or an
`HTTPException`. -/
inductive HResult where
  | redirect (url : String) (status : Nat)
  | studentsPage (students : List Student) (q : String)
  | studentEditPage (student : Student)
  | studentDetailPage (student : Student) (reports : List DailyReport)
      (flash_success : Option String) (flash_error : Option String)
      (status : Nat)
  | reportListPage (student : Student) (reports : List DailyReport)
  | reportNewPage (student : Student)
  | reportEditPage (student : Student) (report : DailyReport)
  | httpError (status : Nat) (detail : String)
deriving Repr, DecidableEq

/-- Embedding of `_require_login` (src/app/main.py lines 80 to 84): the
redirect produced by the gate, or none when the session is authenticated. -/
def require_login (s : SessionState) : Option HResult :=
  match require_user_or_redirect s with
  | AuthResult.redirect url code => some (HResult.redirect url code)
  | AuthResult.identity _ => none

/-- Replace the first element satisfying `p` (the row fetched by primary
key, then mutated and committed) with its updated value. -/
def updateFirstBy {α : Type} (p : α → Bool) (f : α → α) : List α → List α
  | [] => []
  | x :: xs => if p x then f x :: xs else x :: updateFirstBy p f xs

/-- Embedding of `students_page` (src/app/main.py lines 126 to 140): gate,
optional case-insensitive substring filter over name or email, listing
ordered by creation time descending. -/
def students_page (q : String) (st : AppState) : HResult × AppState :=
  match require_login st.session with
  | some r => (r, st)
  | none =>
      let qt := pyStrip q
      let filtered :=
        if qt == "" then st.db.students
        else st.db.students.filter
          (fun s => likeContains s.name qt || likeContains s.email qt)
      (HResult.studentsPage (sortStudents filtered) qt, st)

/-- Embedding of `create_student` (src/app/main.py lines 143 to 157): gate,
then insert a student with trimmed fields and a store-assigned identifier,
then redirect to its detail page. `now` is the creation timestamp the store
defaults in. -/
def create_student (now : Nat) (name email : String) (st : AppState) :
    HResult × AppState :=
  match require_login st.session with
  | some r => (r, st)
  | none =>
      let sid := st.db.nextStudentId
      let student : Student :=
        { id := some sid, name := pyStrip name, email := pyStrip email,
          created_at := now }
      let db' := { st.db with
        students := st.db.students ++ [student],
        nextStudentId := sid + 1 }
      (HResult.redirect ("/students/" ++ toString sid) 303,
        { st with db := db' })

/-- Embedding of `student_edit_page` (src/app/main.py lines 160 to 175). -/
def student_edit_page (sid : Nat) (st : AppState) : HResult × AppState :=
  match require_login st.session with
  | some r => (r, st)
  | none =>
      match findStudent st.db sid with
      | none =>
          (HResult.redirect "/students?error=Student%20not%20found" 303, st)
      | some s => (HResult.studentEditPage s, st)

/-- Embedding of `student_edit_submit` (src/app/main.py lines 178 to 196):
gate, lookup, overwrite name and email with trimmed values, redirect. -/
def student_edit_submit (sid : Nat) (name email : String) (st : AppState) :
    HResult × AppState :=
  match require_login st.session with
  | some r => (r, st)
  | none =>
      match findStudent st.db sid with
      | none =>
          (HResult.redirect "/students?error=Student%20not%20found" 303, st)
      | some _ =>
          let db' := { st.db with
            students :=
              updateFirstBy (fun s => s.id == some sid)
                (fun s =>
                  { s with name := pyStrip name, email := pyStrip email })
                st.db.students }
          (HResult.redirect
            ("/students/" ++ toString sid ++ "?success=Student%20updated")
            303, { st with db := db' })

/-- Embedding of `student_delete` (src/app/main.py lines 214 to 237): gate,
lookup, then best-effort deletion of the uploaded file behind every report
owned by the student, then deletion of all those report rows, then deletion
of the student row. The file loop runs over the report set read before any
row is removed; an unlink failure signalled by `fail` is swallowed inside
`try_delete_uploaded_file` and the handler proceeds. -/
def student_delete (fail : List String → Bool) (sid : Nat) (st : AppState) :
    HResult × AppState :=
  match require_login st.session with
  | some r => (r, st)
  | none =>
      match findStudent st.db sid with
      | none =>
          (HResult.redirect "/students?error=Student%20not%20found" 303, st)
      | some _ =>
          let owned := st.db.reports.filter (fun r => r.student_id == sid)
          let fs' := owned.foldl
            (fun fs r => try_delete_uploaded_file fail fs r.image_path) st.fs
          let db' := { st.db with
            reports := st.db.reports.filter (fun r => !(r.student_id == sid)),
            students := st.db.students.filter (fun s => !(s.id == some sid)) }
          (HResult.redirect "/students?success=Student%20deleted" 303,
            { st with db := db', fs := fs' })

/-- Embedding of `student_detail` (src/app/main.py lines 240 to 269): gate,
lookup raising 404 on a missing student, then the ten most recent reports in
listing order. -/
def student_detail (sid : Nat) (st : AppState) : HResult × AppState :=
  match require_login st.session with
  | some r => (r, st)
  | none =>
      match findStudent st.db sid with
      | none => (HResult.httpError 404 "Student not found", st)
      | some s =>
          let recent := (sortReports
            (st.db.reports.filter (fun r => r.student_id == sid))).take 10
          (HResult.studentDetailPage s recent none none 200, st)

/-- Embedding of `report_list` (src/app/main.py lines 272 to 294): gate,
lookup raising 404 on a missing student, then the full report listing in
order report date descending, creation time descending. -/
def report_list (sid : Nat) (st : AppState) : HResult × AppState :=
  match require_login st.session with
  | some r => (r, st)
  | none =>
      match findStudent st.db sid with
      | none => (HResult.httpError 404 "Student not found", st)
      | some s =>
          (HResult.reportListPage s
            (sortReports (st.db.reports.filter (fun r => r.student_id == sid))),
            st)

/-- Embedding of `report_new` (src/app/main.py lines 297 to 313). -/
def report_new (sid : Nat) (st : AppState) : HResult × AppState :=
  match require_login st.session with
  | some r => (r, st)
  | none =>
      match findStudent st.db sid with
      | none => (HResult.httpError 404 "Student not found", st)
      | some s => (HResult.reportNewPage s, st)

/-- Embedding of `create_report` (src/app/main.py lines 327 to 362): gate,
parent lookup raising 404, optional upload save, then insertion of the new
report row. `report_date` arrives already parsed (a malformed ISO date fails
at the boundary before this logic, outside these claims); `now` is the
creation timestamp; `fresh` is the unique upload token. The rating is stored
exactly as submitted: neither the form parameter nor the table-model
construction applies the declared 1 to 5 bounds. -/
def create_report (now : Nat) (fresh : String) (sid : Nat)
    (report_date : Nat) (notes : String) (rating : Option Int)
    (image_url : Option String) (image_file : Option Upload)
    (st : AppState) : HResult × AppState :=
  match require_login st.session with
  | some r => (r, st)
  | none =>
      match findStudent st.db sid with
      | none => (HResult.httpError 404 "Student not found", st)
      | some _ =>
          let saved :=
            match image_file with
            | some f =>
                if f.filename == "" then (none, st.fs)
                else
                  let (p, fs1) := save_upload fresh f st.fs
                  (some p, fs1)
            | none => (none, st.fs)
          let stored_image_url :=
            match image_url with
            | some s => if s == "" then none else some (pyStrip s)
            | none => none
          let rid := st.db.nextReportId
          let report : DailyReport :=
            { id := some rid, student_id := sid, report_date := report_date,
              notes := pyStrip notes, rating := rating,
              image_url := stored_image_url, image_path := saved.1,
              created_at := now }
          let db' := { st.db with
            reports := st.db.reports ++ [report],
            nextReportId := rid + 1 }
          (HResult.redirect
            ("/students/" ++ toString sid ++ "?success=Report%20saved") 303,
            { st with db := db', fs := saved.2 })

/-- Embedding of `report_edit_page` (src/app/main.py lines 365 to 386). -/
def report_edit_page (sid rid : Nat) (st : AppState) : HResult × AppState :=
  match require_login st.session with
  | some r => (r, st)
  | none =>
      match findStudent st.db sid with
      | none =>
          (HResult.redirect "/students?error=Student%20not%20found" 303, st)
      | some s =>
          match findReport st.db rid with
          | none =>
              (HResult.redirect
                ("/students/" ++ toString sid ++
                  "/reports?error=Report%20not%20found") 303, st)
          | some r =>
              if !(r.student_id == sid) then
                (HResult.redirect
                  ("/students/" ++ toString sid ++
                    "/reports?error=Report%20not%20found") 303, st)
              else (HResult.reportEditPage s r, st)

/-- Embedding of `report_edit_submit` (src/app/main.py lines 389 to 436):
gate, parent and report lookup, then the field updates in source order.
A truthy clear flag on the URL slot nulls it before the supplied value is
even examined; otherwise a blank or absent value keeps the stored one. A
truthy clear flag on the upload slot deletes the backing file and nulls the
path; a submitted file replaces the previous upload, deleting its backing
file first. The updated row replaces the old one in the store. -/
def report_edit_submit (fail : List String → Bool) (fresh : String)
    (sid rid : Nat) (report_date : Nat) (notes : String)
    (rating : Option Int)
    (image_url clear_image_url clear_image_upload : Option String)
    (image_file : Option Upload) (st : AppState) : HResult × AppState :=
  match require_login st.session with
  | some r => (r, st)
  | none =>
      match findStudent st.db sid with
      | none =>
          (HResult.redirect "/students?error=Student%20not%20found" 303, st)
      | some _ =>
          match findReport st.db rid with
          | none =>
              (HResult.redirect
                ("/students/" ++ toString sid ++
                  "/reports?error=Report%20not%20found") 303, st)
          | some r0 =>
              if !(r0.student_id == sid) then
                (HResult.redirect
                  ("/students/" ++ toString sid ++
                    "/reports?error=Report%20not%20found") 303, st)
              else
                let r1 := { r0 with
                  report_date := report_date,
                  notes := pyStrip notes,
                  rating := rating }
                let r2 :=
                  if strTruthy clear_image_url then
                    { r1 with image_url := none }
                  else
                    match image_url with
                    | some s =>
                        if !(pyStrip s == "") then
                          { r1 with image_url := some (pyStrip s) }
                        else r1
                    | none => r1
                let step3 :=
                  if strTruthy clear_image_upload then
                    ({ r2 with image_path := none },
                      try_delete_uploaded_file fail st.fs r2.image_path)
                  else (r2, st.fs)
                let step4 :=
                  match image_file with
                  | some f =>
                      if f.filename == "" then step3
                      else
                        let fsA := try_delete_uploaded_file fail step3.2
                          step3.1.image_path
                        let saved := save_upload fresh f fsA
                        ({ step3.1 with image_path := some saved.1 },
                          saved.2)
                  | none => step3
                let db' := { st.db with
                  reports :=
                    updateFirstBy (fun x => x.id == some rid)
                      (fun _ => step4.1) st.db.reports }
                (HResult.redirect
                  ("/students/" ++ toString sid ++
                    "/reports?success=Report%20updated") 303,
                  { st with db := db', fs := step4.2 })

/-- Embedding of `report_delete` (src/app/main.py lines 439 to 456): gate,
report lookup with owner check, best-effort deletion of the backing file,
then removal of the row. -/
def report_delete (fail : List String → Bool) (sid rid : Nat)
    (st : AppState) : HResult × AppState :=
  match require_login st.session with
  | some r => (r, st)
  | none =>
      match findReport st.db rid with
      | none =>
          (HResult.redirect
            ("/students/" ++ toString sid ++
              "/reports?error=Report%20not%20found") 303, st)
      | some r =>
          if !(r.student_id == sid) then
            (HResult.redirect
              ("/students/" ++ toString sid ++
                "/reports?error=Report%20not%20found") 303, st)
          else
            let fs' := try_delete_uploaded_file fail st.fs r.image_path
            let db' := { st.db with
              reports := st.db.reports.filter (fun x => !(x.id == some rid)) }
            (HResult.redirect
              ("/students/" ++ toString sid ++
                "/reports?success=Report%20deleted") 303,
              { st with db := db', fs := fs' })

/-- The mail-server settings the dispatch path inspects (src/app/config.py):
host and sender, each absent or possibly empty. -/
structure EmailConfig where
  smtp_host : Option String
  smtp_from : Option String
deriving Repr, DecidableEq

/-- The message carried by `EmailNotConfiguredError`. -/
def emailNotConfiguredMsg : String :=
  "SMTP is not configured. Set SMTP_HOST and SMTP_FROM (and credentials if needed)."

/-- Embedding of `ensure_email_configured` (src/app/emailer.py lines 13 to
17): raises the typed configuration error when the host or the sender is
unset or empty, modelled as `Except.error`. -/
def ensure_email_configured (cfg : EmailConfig) : Except String Unit :=
  if !(strTruthy cfg.smtp_host) || !(strTruthy cfg.smtp_from) then
    Except.error emailNotConfiguredMsg
  else Except.ok ()

/-- Embedding of `send_report_command` (src/app/main.py lines 459 to 558):
gate, student lookup raising 404, newest report of the requested date, then
the dispatch decision: the configuration check runs synchronously and on
success the send is appended to the background queue, whose later outcome
(`transportWouldFail`) the handler never examines; on the typed
configuration error the handler converts it to a flash message and queues
nothing. -/
def send_report_command (cfg : EmailConfig) (transportWouldFail : Bool)
    (sid : Nat) (report_date : Nat) (st : AppState) : HResult × AppState :=
  match require_login st.session with
  | some r => (r, st)
  | none =>
      match findStudent st.db sid with
      | none => (HResult.httpError 404 "Student not found", st)
      | some student =>
          let recent := (sortReports
            (st.db.reports.filter (fun r => r.student_id == sid))).take 10
          match (sortByCreated (st.db.reports.filter (fun r =>
              r.student_id == sid && r.report_date == report_date))).head? with
          | none =>
              (HResult.studentDetailPage student recent none
                (some ("No report found for " ++ toString report_date ++ "."))
                404, st)
          | some report =>
              let subject := "Dorm Report - " ++ student.name ++ " - " ++
                toString report.report_date
              match ensure_email_configured cfg with
              | Except.ok _ =>
                  (HResult.studentDetailPage student recent
                    (some ("Queued email to " ++ student.email ++ " for " ++
                      toString report_date ++ ".")) none 200,
                    { st with background := st.background ++
                      [{ to_email := student.email, subject := subject }] })
              | Except.error e =>
                  (HResult.studentDetailPage student recent none (some e) 200,
                    st)

/-- The verified claim delivered by the identity provider, as read with
`dict.get` by `upsert_user_from_google` (src/app/auth.py lines 63 to 66). -/
structure UserInfo where
  email : Option String
  name : Option String
  given_name : Option String
  picture : Option String
deriving Repr, DecidableEq

/-- Python `a or b` on an optional string against a default: None and the
empty string fall through to the default. -/
def pyOr (a : Option String) (b : String) : String :=
  match a with
  | none => b
  | some s => if s == "" then b else s

/-- Email normalization of the upsert: `(userinfo.get("email") or
"").strip().lower()`. -/
def normEmail (i : UserInfo) : String :=
  lowerStr (pyStrip (pyOr i.email ""))

/-- Display-name computation of the upsert: `(userinfo.get("name") or
userinfo.get("given_name") or email or "User").strip()`, where `email` is
the normalized address. -/
def googleName (i : UserInfo) : String :=
  pyStrip (pyOr i.name (pyOr i.given_name (pyOr (some (normEmail i)) "User")))

/-- Update the first stored row whose email matches, overwriting name and
avatar while leaving identifier, email and creation time untouched; `none`
when no row matches. Mirrors `select(...).first()` followed by the in-place
mutation and commit. -/
def upsertUsers (email name : String) (picture : Option String) :
    List DormUser → Option (DormUser × List DormUser)
  | [] => none
  | u :: us =>
      if u.email == email then
        let u' := { u with name := name, picture_url := picture }
        some (u', u' :: us)
      else
        match upsertUsers email name picture us with
        | some (v, us') => some (v, u :: us')
        | none => none

/-- Embedding of `upsert_user_from_google` (src/app/auth.py lines 63 to 81):
normalize the email, compute the display name, then either overwrite the
matching row or insert a fresh one with a store-assigned identifier. `now`
is the creation timestamp defaulted in on insert. -/
def upsert_user_from_google (now : Nat) (db : DB) (i : UserInfo) :
    DormUser × DB :=
  let email := normEmail i
  let name := googleName i
  let picture := i.picture
  match upsertUsers email name picture db.users with
  | some (u, users') => (u, { db with users := users' })
  | none =>
      let u : DormUser :=
        { id := some db.nextUserId, email := email, name := name,
          picture_url := picture, created_at := now }
      (u, { db with
        users := db.users ++ [u],
        nextUserId := db.nextUserId + 1 })

/-! Concrete fixtures used by witnesses and counterexamples. -/

/-- A store with no rows and fresh identifier counters. -/
def emptyDB : DB :=
  { users := [], students := [], reports := [], nextUserId := 1,
    nextStudentId := 1, nextReportId := 1 }

/-- A stored identity with a non-empty email. -/
def staffIdentity : SessionIdentity :=
  { id := some 1, email := some "staff@dorm.example", name := some "Staff",
    picture_url := none }

/-- A session holding that identity. -/
def authedSession : SessionState := { user := some staffIdentity }

/-- Application state for a browser with no stored identity. -/
def anonState : AppState :=
  { session := { user := none }, db := emptyDB, fs := [], background := [] }

/-! Theorems for the claims. -/

/-- Helper: an unauthenticated session makes the login gate produce the 303
redirect to the login surface. -/
theorem require_login_redirect (s : SessionState)
    (h : isAuthenticated s = false) :
    require_login s = some (HResult.redirect "/login" 303) := by
  cases hu : s.user with
  | none => simp [require_login, require_user_or_redirect, get_current_user, hu]
  | some u =>
      cases ht : strTruthy u.email with
      | true =>
          exfalso
          simp [isAuthenticated, require_user_or_redirect, get_current_user,
            hu, ht] at h
      | false =>
          simp [require_login, require_user_or_redirect, get_current_user,
            hu, ht]

/-- Helper: an authenticated session passes the login gate. -/
theorem require_login_none (s : SessionState)
    (h : isAuthenticated s = true) : require_login s = none := by
  unfold isAuthenticated at h
  unfold require_login
  cases hr : require_user_or_redirect s with
  | identity u => rfl
  | redirect url code => rw [hr] at h; simp at h

/-- C2: a session with no stored identity, or one whose email field is
missing or empty, makes `require_user_or_redirect` return the 303 redirect
to the login surface (the function is total, so no exception can escape);
a stored identity with a non-empty email is returned as the identity. -/
theorem claim_C2 (s : SessionState) :
    ((s.user = none ∨
        ∃ u, s.user = some u ∧ (u.email = none ∨ u.email = some "")) →
      require_user_or_redirect s = AuthResult.redirect "/login" 303)
  ∧ (∀ u e, s.user = some u → u.email = some e → e ≠ "" →
      require_user_or_redirect s = AuthResult.identity u) := by
  constructor
  · rintro (h | ⟨u, hu, he | he⟩)
    · simp [require_user_or_redirect, get_current_user, h]
    · simp [require_user_or_redirect, get_current_user, hu, strTruthy, he]
    · simp [require_user_or_redirect, get_current_user, hu, strTruthy, he]
  · intro u e hu he hne
    simp [require_user_or_redirect, get_current_user, hu, strTruthy, he, hne]

/-- Witness for C2 at a sessionless browser and at a session with a
non-empty email. -/
theorem claim_C2_witness :
    require_user_or_redirect { user := none } =
      AuthResult.redirect "/login" 303
  ∧ require_user_or_redirect { user := some staffIdentity } =
      AuthResult.identity staffIdentity := by
  constructor
  · exact (claim_C2 { user := none }).1 (Or.inl rfl)
  · exact (claim_C2 { user := some staffIdentity }).2 staffIdentity
      "staff@dorm.example" rfl rfl (by decide)

/-- C1: on a session the gate rejects, every gated route returns the login
redirect produced by the gate and leaves the whole application state,
entity store included, untouched. The conjuncts cover, in order: student
list, student create, student edit page, student edit submit, student
delete, student detail, report list, report new page, report create, report
edit page, report edit submit, report delete, and send. -/
theorem claim_C1 (st : AppState) (h : isAuthenticated st.session = false) :
    (∀ q, students_page q st = (HResult.redirect "/login" 303, st))
  ∧ (∀ now name email,
      create_student now name email st = (HResult.redirect "/login" 303, st))
  ∧ (∀ sid,
      student_edit_page sid st = (HResult.redirect "/login" 303, st))
  ∧ (∀ sid name email,
      student_edit_submit sid name email st =
        (HResult.redirect "/login" 303, st))
  ∧ (∀ fail sid,
      student_delete fail sid st = (HResult.redirect "/login" 303, st))
  ∧ (∀ sid, student_detail sid st = (HResult.redirect "/login" 303, st))
  ∧ (∀ sid, report_list sid st = (HResult.redirect "/login" 303, st))
  ∧ (∀ sid, report_new sid st = (HResult.redirect "/login" 303, st))
  ∧ (∀ now fresh sid d notes rating image_url image_file,
      create_report now fresh sid d notes rating image_url image_file st =
        (HResult.redirect "/login" 303, st))
  ∧ (∀ sid rid,
      report_edit_page sid rid st = (HResult.redirect "/login" 303, st))
  ∧ (∀ fail fresh sid rid d notes rating image_url cu cv image_file,
      report_edit_submit fail fresh sid rid d notes rating image_url cu cv
        image_file st = (HResult.redirect "/login" 303, st))
  ∧ (∀ fail sid rid,
      report_delete fail sid rid st = (HResult.redirect "/login" 303, st))
  ∧ (∀ cfg tf sid d,
      send_report_command cfg tf sid d st =
        (HResult.redirect "/login" 303, st)) := by
  have hr := require_login_redirect st.session h
  refine ⟨?_, ?_, ?_, ?_, ?_, ?_, ?_, ?_, ?_, ?_, ?_, ?_, ?_⟩ <;> intros <;>
    simp only [students_page, create_student, student_edit_page,
      student_edit_submit, student_delete, student_detail, report_list,
      report_new, create_report, report_edit_page, report_edit_submit,
      report_delete, send_report_command, hr]

/-- Witness for C1: each gated route applied at a sessionless browser with
concrete arguments yields the login redirect and the unchanged state. -/
theorem claim_C1_witness :
    students_page "x" anonState = (HResult.redirect "/login" 303, anonState)
  ∧ create_student 5 "Ana" "a@x.com" anonState =
      (HResult.redirect "/login" 303, anonState)
  ∧ student_edit_page 1 anonState = (HResult.redirect "/login" 303, anonState)
  ∧ student_edit_submit 1 "B" "b@x.com" anonState =
      (HResult.redirect "/login" 303, anonState)
  ∧ student_delete (fun _ => false) 1 anonState =
      (HResult.redirect "/login" 303, anonState)
  ∧ student_detail 1 anonState = (HResult.redirect "/login" 303, anonState)
  ∧ report_list 1 anonState = (HResult.redirect "/login" 303, anonState)
  ∧ report_new 1 anonState = (HResult.redirect "/login" 303, anonState)
  ∧ create_report 5 "ffff" 1 20240101 "ok" (some 4) none none anonState =
      (HResult.redirect "/login" 303, anonState)
  ∧ report_edit_page 1 1 anonState = (HResult.redirect "/login" 303, anonState)
  ∧ report_edit_submit (fun _ => false) "ffff" 1 1 20240101 "ok" none none
      none none none anonState = (HResult.redirect "/login" 303, anonState)
  ∧ report_delete (fun _ => false) 1 1 anonState =
      (HResult.redirect "/login" 303, anonState)
  ∧ send_report_command { smtp_host := some "h", smtp_from := some "f" } false
      1 20240101 anonState = (HResult.redirect "/login" 303, anonState) := by
  have h := claim_C1 anonState rfl
  exact ⟨h.1 "x", h.2.1 5 "Ana" "a@x.com", h.2.2.1 1,
    h.2.2.2.1 1 "B" "b@x.com", h.2.2.2.2.1 (fun _ => false) 1,
    h.2.2.2.2.2.1 1, h.2.2.2.2.2.2.1 1, h.2.2.2.2.2.2.2.1 1,
    h.2.2.2.2.2.2.2.2.1 5 "ffff" 1 20240101 "ok" (some 4) none none,
    h.2.2.2.2.2.2.2.2.2.1 1 1,
    h.2.2.2.2.2.2.2.2.2.2.1 (fun _ => false) "ffff" 1 1 20240101 "ok" none
      none none none none,
    h.2.2.2.2.2.2.2.2.2.2.2.1 (fun _ => false) 1 1,
    h.2.2.2.2.2.2.2.2.2.2.2.2 { smtp_host := some "h", smtp_from := some "f" }
      false 1 20240101⟩

/-- A stored student used by several concrete runs. -/
def ana : Student :=
  { id := some 1, name := "Ana", email := "a@x.com", created_at := 1 }

/-- Authenticated state holding only the student Ana. -/
def stAna : AppState :=
  { session := authedSession,
    db := { emptyDB with
      students := [ana],
      nextStudentId := 2 },
    fs := [], background := [] }

/-- C5 (evidence of the code bug): a report creation with rating 0, and one
with rating 6, both complete with the success redirect and persist the
out-of-range rating. The model declares the bounds 1 to 5 on the rating
field, but SQLModel table models skip validation on construction, the form
parameter carries no bounds, and the store adds no check constraint, so
nothing rejects the value before persistence. -/
theorem claim_C5_bug :
    ((create_report 5 "ffff" 1 20240101 "ok" (some 0) none none
        stAna).2.db.reports.map (fun r => r.rating)) = [some 0]
  ∧ (create_report 5 "ffff" 1 20240101 "ok" (some 0) none none stAna).1 =
      HResult.redirect "/students/1?success=Report%20saved" 303
  ∧ ((create_report 5 "ffff" 1 20240101 "ok" (some 6) none none
        stAna).2.db.reports.map (fun r => r.rating)) = [some 6] := by
  exact ⟨rfl, rfl, rfl⟩

/-- C9 (evidence of the code bug): the guard of the attachment delete only
checks the string prefix, so the traversal path `/uploads/../secret.txt`
passes it, resolves to `BASE/static/secret.txt` outside the uploads
directory, and that file is unlinked. -/
theorem claim_C9_bug :
    try_delete_uploaded_file (fun _ => false)
        [["BASE", "static", "secret.txt"]] (some "/uploads/../secret.txt") =
      ([] : FS)
  ∧ underUploads ["BASE", "static", "secret.txt"] = false := by
  exact ⟨rfl, rfl⟩

/-- A report for Ana dated 20240101 with no attachments. -/
def rep1 : DailyReport :=
  { id := some 1, student_id := 1, report_date := 20240101, notes := "ok",
    rating := some 4, image_url := none, image_path := none,
    created_at := 2 }

/-- Authenticated state with Ana and her report, ready for the send route. -/
def stSend : AppState :=
  { session := authedSession,
    db := { emptyDB with
      students := [ana],
      reports := [rep1],
      nextStudentId := 2,
      nextReportId := 2 },
    fs := [], background := [] }

/-- A mail configuration with the host set but the sender absent. -/
def hostOnlyConfig : EmailConfig :=
  { smtp_host := some "smtp.example.com", smtp_from := none }

/-- Counterexample to C8 as stated: with the mail-server host set but the
sender unset, the dispatch is rejected (configuration flash error, no
background task), while the claim promises acceptance whenever the host is
set. -/
theorem claim_C8_counterexample :
    (send_report_command hostOnlyConfig false 1 20240101 stSend).1 =
      HResult.studentDetailPage ana [rep1] none (some emailNotConfiguredMsg)
        200
  ∧ (send_report_command hostOnlyConfig false 1 20240101
      stSend).2.background = [] := by
  exact ⟨rfl, rfl⟩

/-- A report for Ana whose attachment slot points at an uploaded file. -/
def repWithFile : DailyReport :=
  { id := some 1, student_id := 1, report_date := 20240101, notes := "ok",
    rating := none, image_url := none,
    image_path := some "/uploads/a.png", created_at := 2 }

/-- Authenticated state with Ana, her file-backed report, and the backing
file present on disk. -/
def stDel : AppState :=
  { session := authedSession,
    db := { emptyDB with
      students := [ana],
      reports := [repWithFile],
      nextStudentId := 2,
      nextReportId := 2 },
    fs := [["BASE", "static", "uploads", "a.png"]], background := [] }

/-- Counterexample to C4 as stated: when the OS fails the unlink (the
failure being swallowed), the delete-student operation still completes,
removing the report row and the student row, yet the backing file is still
present in storage, against the claim that all backing files end up
removed. -/
theorem claim_C4_counterexample :
    (student_delete (fun _ => true) 1 stDel).2.fs =
      [["BASE", "static", "uploads", "a.png"]]
  ∧ (student_delete (fun _ => true) 1 stDel).2.db.reports = []
  ∧ (student_delete (fun _ => true) 1 stDel).2.db.students = []
  ∧ (student_delete (fun _ => true) 1 stDel).1 =
      HResult.redirect "/students?success=Student%20deleted" 303 := by
  exact ⟨rfl, rfl, rfl, rfl⟩

/-- Helper: a committed in-place row update is found again under the same
primary-key predicate. -/
theorem find?_updateFirstBy {α : Type} (p : α → Bool) (f : α → α)
    (l : List α) (x : α) (hx : l.find? p = some x) (hf : p (f x) = true) :
    (updateFirstBy p f l).find? p = some (f x) := by
  induction l with
  | nil => simp at hx
  | cons a t ih =>
      by_cases ha : p a
      · rw [List.find?_cons_of_pos t ha] at hx
        cases hx
        simp [updateFirstBy, ha, List.find?_cons_of_pos t hf]
      · rw [List.find?_cons_of_neg t ha] at hx
        simp only [updateFirstBy, ha, if_false, Bool.false_eq_true]
        rw [List.find?_cons_of_neg _ ha]
        exact ih hx

/-- C6: when the clear flag for the pasted URL slot is set (a non-empty
string, as a submitted checkbox sends) and the URL form field is non-empty
at the same time, the persisted report ends with no pasted URL: the clear
flag wins over the supplied value. -/
theorem claim_C6 (fail : List String → Bool) (fresh : String)
    (sid rid d : Nat) (notes : String) (rating : Option Int)
    (u c : String) (cv : Option String) (image_file : Option Upload)
    (st : AppState)
    (hauth : isAuthenticated st.session = true)
    (s : Student) (hs : findStudent st.db sid = some s)
    (r0 : DailyReport) (hr0 : findReport st.db rid = some r0)
    (hown : r0.student_id = sid)
    (hc : c ≠ "") (hu : u ≠ "") :
    ∃ r', findReport (report_edit_submit fail fresh sid rid d notes rating
        (some u) (some c) cv image_file st).2.db rid = some r'
      ∧ r'.image_url = none := by
  have hgate := require_login_none st.session hauth
  have hr0' : st.db.reports.find? (fun r => r.id == some rid) = some r0 := hr0
  have hid : (r0.id == some rid) = true := by
    simpa using List.find?_some hr0'
  have hc' : strTruthy (some c) = true := by
    simp [strTruthy, hc]
  simp only [report_edit_submit, hgate, hs, hr0, hown, beq_self_eq_true,
    Bool.not_true, Bool.false_eq_true, if_false, hc', if_true]
  unfold findReport
  refine ⟨_, find?_updateFirstBy _ _ _ _ hr0' ?_, ?_⟩
  · cases hcv : strTruthy cv <;> cases image_file with
    | none => simp [hcv, hid]
    | some f =>
        by_cases hf : f.filename == "" <;> simp [hcv, hf, hid]
  · cases hcv : strTruthy cv <;> cases image_file with
    | none => simp [hcv]
    | some f =>
        by_cases hf : f.filename == "" <;> simp [hcv, hf]

/-- Witness for C6: a concrete edit with the clear flag checked and a
non-empty URL supplied leaves the stored report with no pasted URL. -/
theorem claim_C6_witness :
    ∃ r', findReport (report_edit_submit (fun _ => false) "ffff" 1 1 20240102
        "later" none (some "http://img.example/x.png") (some "true") none
        none stSend).2.db 1 = some r'
      ∧ r'.image_url = none := by
  exact claim_C6 (fun _ => false) "ffff" 1 1 20240102 "later" none
    "http://img.example/x.png" "true" none none stSend rfl ana rfl rep1 rfl
    rfl (by decide) (by decide)

/-- C10: two independent frame conditions of the report edit. First, with
the URL clear flag unchecked and the URL field absent or blank, the stored
pasted URL is kept, whatever the upload-slot inputs do. Second, with the
upload clear flag unchecked and no new file submitted, the stored upload
path is kept and the filesystem is untouched, whatever the URL-slot inputs
do. -/
theorem claim_C10 (fail : List String → Bool) (fresh : String)
    (sid rid d : Nat) (notes : String) (rating : Option Int)
    (image_url cu cv : Option String) (image_file : Option Upload)
    (st : AppState)
    (hauth : isAuthenticated st.session = true)
    (s : Student) (hs : findStudent st.db sid = some s)
    (r0 : DailyReport) (hr0 : findReport st.db rid = some r0)
    (hown : r0.student_id = sid) :
    (strTruthy cu = false →
      (image_url = none ∨ ∃ v, image_url = some v ∧ pyStrip v = "") →
      ∃ r', findReport (report_edit_submit fail fresh sid rid d notes rating
          image_url cu cv image_file st).2.db rid = some r'
        ∧ r'.image_url = r0.image_url)
  ∧ (strTruthy cv = false → fileTruthy image_file = false →
      (∃ r', findReport (report_edit_submit fail fresh sid rid d notes
          rating image_url cu cv image_file st).2.db rid = some r'
        ∧ r'.image_path = r0.image_path)
      ∧ (report_edit_submit fail fresh sid rid d notes rating image_url cu
          cv image_file st).2.fs = st.fs) := by
  have hgate := require_login_none st.session hauth
  have hr0' : st.db.reports.find? (fun r => r.id == some rid) = some r0 := hr0
  have hid : (r0.id == some rid) = true := by
    simpa using List.find?_some hr0'
  constructor
  · intro hcu hurl
    rcases hurl with hurl | ⟨v, hv, hvs⟩
    · subst hurl
      simp only [report_edit_submit, hgate, hs, hr0, hown, beq_self_eq_true,
        Bool.not_true, Bool.false_eq_true, if_false, hcu]
      unfold findReport
      refine ⟨_, find?_updateFirstBy _ _ _ _ hr0' ?_, ?_⟩
      · cases hcv : strTruthy cv <;> cases image_file with
        | none => simp [hcv, hid]
        | some f => by_cases hf : f.filename == "" <;> simp [hcv, hf, hid]
      · cases hcv : strTruthy cv <;> cases image_file with
        | none => simp [hcv]
        | some f => by_cases hf : f.filename == "" <;> simp [hcv, hf]
    · subst hv
      have hv' : (pyStrip v == "") = true := by simp [hvs]
      simp only [report_edit_submit, hgate, hs, hr0, hown, beq_self_eq_true,
        Bool.not_true, Bool.false_eq_true, if_false, hcu, hv']
      unfold findReport
      refine ⟨_, find?_updateFirstBy _ _ _ _ hr0' ?_, ?_⟩
      · cases hcv : strTruthy cv <;> cases image_file with
        | none => simp [hcv, hid]
        | some f => by_cases hf : f.filename == "" <;> simp [hcv, hf, hid]
      · cases hcv : strTruthy cv <;> cases image_file with
        | none => simp [hcv]
        | some f => by_cases hf : f.filename == "" <;> simp [hcv, hf]
  · intro hcv hfile
    simp only [report_edit_submit, hgate, hs, hr0, hown, beq_self_eq_true,
      Bool.not_true, Bool.false_eq_true, if_false, hcv]
    constructor
    · unfold findReport
      refine ⟨_, find?_updateFirstBy _ _ _ _ hr0' ?_, ?_⟩
      · cases image_file with
        | none =>
            cases hcu : strTruthy cu
            · cases image_url with
              | none => simp [hcu, hid]
              | some v =>
                  by_cases hv : pyStrip v == "" <;> simp [hcu, hv, hid]
            · simp [hcu, hid]
        | some f =>
            have hf : (f.filename == "") = true := by
              simpa [fileTruthy] using hfile
            cases hcu : strTruthy cu
            · cases image_url with
              | none => simp [hcu, hf, hid]
              | some v =>
                  by_cases hv : pyStrip v == "" <;> simp [hcu, hf, hv, hid]
            · simp [hcu, hf, hid]
      · cases image_file with
        | none =>
            cases hcu : strTruthy cu
            · cases image_url with
              | none => simp [hcu]
              | some v => by_cases hv : pyStrip v == "" <;> simp [hcu, hv]
            · simp [hcu]
        | some f =>
            have hf : (f.filename == "") = true := by
              simpa [fileTruthy] using hfile
            cases hcu : strTruthy cu
            · cases image_url with
              | none => simp [hcu, hf]
              | some v =>
                  by_cases hv : pyStrip v == "" <;> simp [hcu, hf, hv]
            · simp [hcu, hf]
    · cases image_file with
      | none =>
          cases hcu : strTruthy cu
          · cases image_url with
            | none => simp [hcu]
            | some v => by_cases hv : pyStrip v == "" <;> simp [hcu, hv]
          · simp [hcu]
      | some f =>
          have hf : (f.filename == "") = true := by
            simpa [fileTruthy] using hfile
          cases hcu : strTruthy cu
          · cases image_url with
            | none => simp [hcu, hf]
            | some v => by_cases hv : pyStrip v == "" <;> simp [hcu, hf, hv]
          · simp [hcu, hf]

/-- Witness for C10, one run per half: an edit that uploads a new photo
while leaving the URL field blank keeps the stored pasted URL, and an edit
that supplies a new URL without touching the upload slot keeps the stored
upload path and the disk. -/
theorem claim_C10_witness :
    (∃ r', findReport (report_edit_submit (fun _ => false) "abcd" 1 1
        20240103 "updated" (some 3) none none none
        (some { filename := "new.png", content := "bytes" }) stDel).2.db 1 =
        some r'
      ∧ r'.image_url = repWithFile.image_url)
  ∧ (∃ r', findReport (report_edit_submit (fun _ => false) "abcd" 1 1
        20240103 "updated" (some 3) (some "http://img.example/new.png")
        none none none stDel).2.db 1 = some r'
      ∧ r'.image_path = repWithFile.image_path)
  ∧ (report_edit_submit (fun _ => false) "abcd" 1 1 20240103 "updated"
      (some 3) (some "http://img.example/new.png") none none none
      stDel).2.fs = stDel.fs := by
  refine ⟨?_, ?_, ?_⟩
  · exact (claim_C10 (fun _ => false) "abcd" 1 1 20240103 "updated" (some 3)
      none none none (some { filename := "new.png", content := "bytes" })
      stDel rfl ana rfl repWithFile rfl rfl).1 rfl (Or.inl rfl)
  · exact ((claim_C10 (fun _ => false) "abcd" 1 1 20240103 "updated"
      (some 3) (some "http://img.example/new.png") none none none stDel rfl
      ana rfl repWithFile rfl rfl).2 rfl rfl).1
  · exact ((claim_C10 (fun _ => false) "abcd" 1 1 20240103 "updated"
      (some 3) (some "http://img.example/new.png") none none none stDel rfl
      ana rfl repWithFile rfl rfl).2 rfl rfl).2

/-- C7: listing the reports of a stored student yields a permutation of
exactly that student's reports, sorted so that later report dates come
first and, among equal dates, later creation times come first. -/
theorem claim_C7 (sid : Nat) (st : AppState)
    (hauth : isAuthenticated st.session = true)
    (s : Student) (hs : findStudent st.db sid = some s) :
    ∃ reports,
      report_list sid st = (HResult.reportListPage s reports, st)
      ∧ reports.Perm (st.db.reports.filter (fun r => r.student_id == sid))
      ∧ List.Sorted reportKeyLE reports
      ∧ List.Pairwise
          (fun a b => a.report_date = b.report_date →
            b.created_at ≤ a.created_at) reports := by
  have hgate := require_login_none st.session hauth
  refine ⟨sortReports (st.db.reports.filter (fun r => r.student_id == sid)),
    ?_, ?_, ?_, ?_⟩
  · simp [report_list, hgate, hs]
  · exact List.perm_insertionSort _ _
  · exact List.sorted_insertionSort _ _
  · refine (List.sorted_insertionSort reportKeyLE _).imp ?_
    intro a b hab heq
    unfold reportKeyLE at hab
    omega

/-- A second report for Ana on the same date, created later, with no
rating (the tie-breaking scenario of the specification). -/
def repLater : DailyReport :=
  { id := some 2, student_id := 1, report_date := 20240101,
    notes := "later", rating := none, image_url := none, image_path := none,
    created_at := 3 }

/-- Authenticated state with Ana and two reports sharing a date. -/
def stTwoReports : AppState :=
  { session := authedSession,
    db := { emptyDB with
      students := [ana],
      reports := [rep1, repLater],
      nextStudentId := 2,
      nextReportId := 3 },
    fs := [], background := [] }

/-- Witness for C7 at the two-report tie-breaking state. -/
theorem claim_C7_witness :
    ∃ reports,
      report_list 1 stTwoReports =
        (HResult.reportListPage ana reports, stTwoReports)
      ∧ reports.Perm (stTwoReports.db.reports.filter
          (fun r => r.student_id == 1))
      ∧ List.Sorted reportKeyLE reports
      ∧ List.Pairwise
          (fun a b => a.report_date = b.report_date →
            b.created_at ≤ a.created_at) reports := by
  exact claim_C7 1 stTwoReports rfl ana rfl

/-- C8 (amended): with the mail-server host or sender unset, dispatch is
rejected synchronously through the typed configuration error converted to a
flash message and no background task is queued; with both set, dispatch is
accepted synchronously and the send is queued, and the whole outcome never
depends on whether the transport would later fail. -/
theorem claim_C8 (cfg : EmailConfig) (tf : Bool) (sid d : Nat)
    (st : AppState)
    (hauth : isAuthenticated st.session = true)
    (s : Student) (hs : findStudent st.db sid = some s)
    (r : DailyReport)
    (hr : (sortByCreated (st.db.reports.filter (fun x =>
        x.student_id == sid && x.report_date == d))).head? = some r) :
    ((strTruthy cfg.smtp_host = false ∨ strTruthy cfg.smtp_from = false) →
      send_report_command cfg tf sid d st =
        (HResult.studentDetailPage s
          ((sortReports (st.db.reports.filter
            (fun x => x.student_id == sid))).take 10)
          none (some emailNotConfiguredMsg) 200, st))
  ∧ (strTruthy cfg.smtp_host = true → strTruthy cfg.smtp_from = true →
      send_report_command cfg tf sid d st =
        (HResult.studentDetailPage s
          ((sortReports (st.db.reports.filter
            (fun x => x.student_id == sid))).take 10)
          (some ("Queued email to " ++ s.email ++ " for " ++ toString d ++
            "."))
          none 200,
          { st with background := st.background ++
            [{ to_email := s.email,
               subject := "Dorm Report - " ++ s.name ++ " - " ++
                 toString r.report_date }] }))
  ∧ (∀ tf', send_report_command cfg tf sid d st =
      send_report_command cfg tf' sid d st) := by
  have hgate := require_login_none st.session hauth
  refine ⟨?_, ?_, fun tf' => rfl⟩
  · intro hcfg
    have hens : ensure_email_configured cfg = Except.error
        emailNotConfiguredMsg := by
      rcases hcfg with h | h <;> simp [ensure_email_configured, h]
    simp [send_report_command, hgate, hs, hr, hens]
  · intro hh hf
    have hens : ensure_email_configured cfg = Except.ok () := by
      simp [ensure_email_configured, hh, hf]
    simp [send_report_command, hgate, hs, hr, hens]

/-- Witness for C8 (amended): at the concrete send state, the host-only
configuration is rejected with no queued task, and a full configuration is
accepted and queues the send. -/
theorem claim_C8_witness :
    send_report_command hostOnlyConfig false 1 20240101 stSend =
      (HResult.studentDetailPage ana
        ((sortReports (stSend.db.reports.filter
          (fun x => x.student_id == 1))).take 10)
        none (some emailNotConfiguredMsg) 200, stSend)
  ∧ send_report_command
      { smtp_host := some "smtp.example.com",
        smtp_from := some "portal@dorm.example" } false 1 20240101 stSend =
      (HResult.studentDetailPage ana
        ((sortReports (stSend.db.reports.filter
          (fun x => x.student_id == 1))).take 10)
        (some ("Queued email to " ++ ana.email ++ " for " ++
          toString (20240101 : Nat) ++ "."))
        none 200,
        { stSend with background := stSend.background ++
          [{ to_email := ana.email,
             subject := "Dorm Report - " ++ ana.name ++ " - " ++
               toString rep1.report_date }] }) := by
  constructor
  · exact (claim_C8 hostOnlyConfig false 1 20240101 stSend rfl ana rfl rep1
      rfl).1 (Or.inr rfl)
  · exact (claim_C8
      { smtp_host := some "smtp.example.com",
        smtp_from := some "portal@dorm.example" } false 1 20240101 stSend
      rfl ana rfl rep1 rfl).2.1 rfl rfl

/-- Helper: the upsert finds no row when no stored email matches. -/
theorem upsertUsers_none (e n : String) (p : Option String) :
    ∀ l : List DormUser, (∀ v ∈ l, v.email ≠ e) →
      upsertUsers e n p l = none
  | [], _ => rfl
  | a :: t, hl => by
      have ha : (a.email == e) = false := by
        simpa using hl a (List.mem_cons_self a t)
      have ih := upsertUsers_none e n p t
        (fun v hv => hl v (List.mem_cons_of_mem a hv))
      simp [upsertUsers, ha, ih]

/-- Helper: with no match in the prefix, the upsert updates exactly the
final row, leaving its identifier, email and creation time unchanged. -/
theorem upsertUsers_append (e n : String) (p : Option String) :
    ∀ (l : List DormUser) (u : DormUser), (∀ v ∈ l, v.email ≠ e) →
      u.email = e →
      upsertUsers e n p (l ++ [u]) =
        some ({ u with name := n, picture_url := p },
          l ++ [{ u with name := n, picture_url := p }])
  | [], u, _, hu => by simp [upsertUsers, hu]
  | a :: t, u, hl, hu => by
      have ha : (a.email == e) = false := by
        simpa using hl a (List.mem_cons_self a t)
      have ih := upsertUsers_append e n p t u
        (fun v hv => hl v (List.mem_cons_of_mem a hv)) hu
      simp [upsertUsers, ha, ih]

/-- Helper: filtering by an email held only by the final row keeps exactly
that row. -/
theorem filter_email_append (e : String) :
    ∀ (l : List DormUser) (u : DormUser), (∀ v ∈ l, v.email ≠ e) →
      u.email = e →
      (l ++ [u]).filter (fun v => v.email == e) = [u]
  | [], u, _, hu => by simp [List.filter, hu]
  | a :: t, u, hl, hu => by
      have ha : (a.email == e) = false := by
        simpa using hl a (List.mem_cons_self a t)
      have ih := filter_email_append e t u
        (fun v hv => hl v (List.mem_cons_of_mem a hv)) hu
      simp [List.filter, ha, ih]

/-- C3: two upserts whose claim emails agree after trimming and
lowercasing, run on a store holding no row for that address, leave exactly
one row for the normalized email; its name and avatar are the second call
values, while its identifier and email are exactly those the first call
assigned. -/
theorem claim_C3 (db : DB) (i1 i2 : UserInfo) (n1 n2 : Nat)
    (he : normEmail i1 = normEmail i2)
    (h0 : ∀ u ∈ db.users, u.email ≠ normEmail i1) :
    ((upsert_user_from_google n2
        (upsert_user_from_google n1 db i1).2 i2).2.users.filter
      (fun u => u.email == normEmail i1)) =
      [(upsert_user_from_google n2
        (upsert_user_from_google n1 db i1).2 i2).1]
  ∧ (upsert_user_from_google n2
      (upsert_user_from_google n1 db i1).2 i2).1.name = googleName i2
  ∧ (upsert_user_from_google n2
      (upsert_user_from_google n1 db i1).2 i2).1.picture_url = i2.picture
  ∧ (upsert_user_from_google n2
      (upsert_user_from_google n1 db i1).2 i2).1.id =
      (upsert_user_from_google n1 db i1).1.id
  ∧ (upsert_user_from_google n2
      (upsert_user_from_google n1 db i1).2 i2).1.email =
      (upsert_user_from_google n1 db i1).1.email := by
  have h1 : upsertUsers (normEmail i1) (googleName i1) i1.picture db.users =
      none := upsertUsers_none _ _ _ db.users h0
  have hP1 : upsert_user_from_google n1 db i1 =
      ({ id := some db.nextUserId, email := normEmail i1,
         name := googleName i1, picture_url := i1.picture,
         created_at := n1 },
       { db with
         users := db.users ++
           [{ id := some db.nextUserId, email := normEmail i1,
              name := googleName i1, picture_url := i1.picture,
              created_at := n1 }],
         nextUserId := db.nextUserId + 1 }) := by
    simp [upsert_user_from_google, h1]
  have h0' : ∀ u ∈ db.users, u.email ≠ normEmail i2 := by
    rw [← he]; exact h0
  have h2 : upsertUsers (normEmail i2) (googleName i2) i2.picture
      (db.users ++
        [{ id := some db.nextUserId, email := normEmail i1,
           name := googleName i1, picture_url := i1.picture,
           created_at := n1 }]) =
      some ({ id := some db.nextUserId, email := normEmail i1,
              name := googleName i2, picture_url := i2.picture,
              created_at := n1 },
        db.users ++
          [{ id := some db.nextUserId, email := normEmail i1,
             name := googleName i2, picture_url := i2.picture,
             created_at := n1 }]) := by
    exact upsertUsers_append (normEmail i2) (googleName i2) i2.picture
      db.users _ h0' he
  have hP2 : upsert_user_from_google n2
      (upsert_user_from_google n1 db i1).2 i2 =
      ({ id := some db.nextUserId, email := normEmail i1,
         name := googleName i2, picture_url := i2.picture,
         created_at := n1 },
       { db with
         users := db.users ++
           [{ id := some db.nextUserId, email := normEmail i1,
              name := googleName i2, picture_url := i2.picture,
              created_at := n1 }],
         nextUserId := db.nextUserId + 1 }) := by
    rw [hP1]
    simp [upsert_user_from_google, h2]
  rw [hP2, hP1]
  refine ⟨?_, rfl, rfl, rfl, rfl⟩
  exact filter_email_append (normEmail i1) db.users _ h0 rfl

/-- First login claim, with spacing and capitals in the email. -/
def claimInfoOne : UserInfo :=
  { email := some " Ana@X.com ", name := some "Ana", given_name := none,
    picture := some "p1" }

/-- Second login claim for the same address, new name and avatar. -/
def claimInfoTwo : UserInfo :=
  { email := some "ana@x.com", name := some "Ana Maria",
    given_name := none, picture := some "p2" }

/-- Witness for C3 at an empty store and two concrete claims whose emails
normalize to the same address. -/
theorem claim_C3_witness :
    ((upsert_user_from_google 9
        (upsert_user_from_google 7 emptyDB claimInfoOne).2
        claimInfoTwo).2.users.filter
      (fun u => u.email == normEmail claimInfoOne)) =
      [(upsert_user_from_google 9
        (upsert_user_from_google 7 emptyDB claimInfoOne).2
        claimInfoTwo).1]
  ∧ (upsert_user_from_google 9
      (upsert_user_from_google 7 emptyDB claimInfoOne).2
      claimInfoTwo).1.name = googleName claimInfoTwo
  ∧ (upsert_user_from_google 9
      (upsert_user_from_google 7 emptyDB claimInfoOne).2
      claimInfoTwo).1.picture_url = claimInfoTwo.picture
  ∧ (upsert_user_from_google 9
      (upsert_user_from_google 7 emptyDB claimInfoOne).2
      claimInfoTwo).1.id =
      (upsert_user_from_google 7 emptyDB claimInfoOne).1.id
  ∧ (upsert_user_from_google 9
      (upsert_user_from_google 7 emptyDB claimInfoOne).2
      claimInfoTwo).1.email =
      (upsert_user_from_google 7 emptyDB claimInfoOne).1.email := by
  exact claim_C3 emptyDB claimInfoOne claimInfoTwo 7 9 rfl (by simp [emptyDB])

/-- Helper: the best-effort delete never adds a file. -/
theorem try_delete_subset (fail : List String → Bool) (fs : FS)
    (p : Option String) :
    ∀ q, q ∈ try_delete_uploaded_file fail fs p → q ∈ fs := by
  intro q hq
  cases p with
  | none => exact hq
  | some s =>
      simp only [try_delete_uploaded_file] at hq
      split at hq
      · exact hq
      · split at hq
        · exact hq
        · split at hq
          · split at hq
            · exact hq
            · exact (List.mem_filter.mp hq).1
          · exact hq

/-- Helper: on a path below the public uploads prefix whose resolved target
the OS can unlink, the best-effort delete leaves the target absent. -/
theorem try_delete_removes (fail : List String → Bool) (fs : FS)
    (p : String)
    (hpre : strPrefixB "/uploads/" p = true)
    (hfail : fail (normalizePath (pathJoin uploadsDir
      (p.drop "/uploads/".length))) = false) :
    normalizePath (pathJoin uploadsDir (p.drop "/uploads/".length)) ∉
      try_delete_uploaded_file fail fs (some p) := by
  intro hmem
  have hne : (p == "") = false := by
    cases hp : p == "" with
    | false => rfl
    | true =>
        have : p = "" := by simpa using hp
        subst this
        exact absurd hpre (by decide)
  simp only [try_delete_uploaded_file, hne, hpre, Bool.not_true,
    Bool.false_eq_true, if_false] at hmem
  by_cases hc : (fs.contains
      (normalizePath (pathJoin uploadsDir (p.drop "/uploads/".length)))) = true
  · rw [if_pos hc, hfail] at hmem
    simp only [Bool.false_eq_true, if_false] at hmem
    have := (List.mem_filter.mp hmem).2
    simp at this
  · rw [if_neg hc] at hmem
    exact hc (List.elem_eq_true_of_mem hmem)

/-- Helper: the file-cleanup loop of the student delete never adds a
file. -/
theorem foldl_try_delete_subset (fail : List String → Bool) :
    ∀ (rs : List DailyReport) (fs : FS) (q : List String),
      q ∈ rs.foldl
        (fun a r => try_delete_uploaded_file fail a r.image_path) fs →
      q ∈ fs
  | [], _, _, h => h
  | r :: t, fs, q, h => by
      have hmem := foldl_try_delete_subset fail t
        (try_delete_uploaded_file fail fs r.image_path) q h
      exact try_delete_subset fail fs r.image_path q hmem

/-- Helper: after the cleanup loop, the resolved target of every processed
report whose unlink the OS does not fail is absent. -/
theorem foldl_try_delete_removes (fail : List String → Bool) :
    ∀ (rs : List DailyReport) (fs : FS) (r : DailyReport) (p : String),
      r ∈ rs → r.image_path = some p →
      strPrefixB "/uploads/" p = true →
      fail (normalizePath (pathJoin uploadsDir
        (p.drop "/uploads/".length))) = false →
      normalizePath (pathJoin uploadsDir (p.drop "/uploads/".length)) ∉
        rs.foldl (fun a x => try_delete_uploaded_file fail a x.image_path) fs
  | [], _, _, _, hmem, _, _, _ => absurd hmem (List.not_mem_nil _)
  | a :: t, fs, r, p, hmem, hp, hpre, hfail => by
      rcases List.mem_cons.mp hmem with h | h
      · subst h
        intro hin
        have hstep := foldl_try_delete_subset fail t
          (try_delete_uploaded_file fail fs r.image_path) _ hin
        rw [hp] at hstep
        exact try_delete_removes fail fs p hpre hfail hstep
      · exact foldl_try_delete_removes fail t
          (try_delete_uploaded_file fail fs a.image_path) r p h hp hpre hfail

/-- C4 (amended): deleting a stored student completes with the success
redirect for every pattern of OS unlink failures (a failure never aborts
the operation), ends with zero report rows for that student and the
student row absent, and leaves absent the resolved backing file of every
owned report whose unlink the OS does not fail; the cleanup loop reads the
report set as it stood before any row deletion. -/
theorem claim_C4 (fail : List String → Bool) (sid : Nat) (st : AppState)
    (hauth : isAuthenticated st.session = true)
    (s : Student) (hs : findStudent st.db sid = some s) :
    (student_delete fail sid st).1 =
      HResult.redirect "/students?success=Student%20deleted" 303
  ∧ ((student_delete fail sid st).2.db.reports.filter
      (fun r => r.student_id == sid)) = []
  ∧ findStudent (student_delete fail sid st).2.db sid = none
  ∧ ∀ r ∈ st.db.reports, r.student_id = sid →
      ∀ p, r.image_path = some p → strPrefixB "/uploads/" p = true →
      fail (normalizePath (pathJoin uploadsDir
        (p.drop "/uploads/".length))) = false →
      normalizePath (pathJoin uploadsDir (p.drop "/uploads/".length)) ∉
        (student_delete fail sid st).2.fs := by
  have hgate := require_login_none st.session hauth
  have hout : student_delete fail sid st =
      (HResult.redirect "/students?success=Student%20deleted" 303,
        { st with
          db := { st.db with
            reports :=
              st.db.reports.filter (fun r => !(r.student_id == sid)),
            students :=
              st.db.students.filter (fun x => !(x.id == some sid)) },
          fs := (st.db.reports.filter (fun r => r.student_id == sid)).foldl
            (fun a r => try_delete_uploaded_file fail a r.image_path)
            st.fs }) := by
    simp [student_delete, hgate, hs]
  rw [hout]
  refine ⟨rfl, ?_, ?_, ?_⟩
  · simp only [List.filter_eq_nil_iff]
    intro a ha
    have ha2 := (List.mem_filter.mp ha).2
    simp only [Bool.not_eq_true'] at ha2
    simp [ha2]
  · simp only [findStudent, List.find?_eq_none]
    intro x hx
    have hx2 := (List.mem_filter.mp hx).2
    simp only [Bool.not_eq_true'] at hx2
    simp [hx2]
  · intro r hr hsid p hp hpre hfail
    exact foldl_try_delete_removes fail _ st.fs r p
      (List.mem_filter.mpr ⟨hr, by simp [hsid]⟩) hp hpre hfail

/-- Witness for C4 (amended) at the concrete file-backed state with no OS
failure: the redirect, the emptied rows, and the absent backing file. -/
theorem claim_C4_witness :
    (student_delete (fun _ => false) 1 stDel).1 =
      HResult.redirect "/students?success=Student%20deleted" 303
  ∧ ((student_delete (fun _ => false) 1 stDel).2.db.reports.filter
      (fun r => r.student_id == 1)) = []
  ∧ findStudent (student_delete (fun _ => false) 1 stDel).2.db 1 = none
  ∧ ["BASE", "static", "uploads", "a.png"] ∉
      (student_delete (fun _ => false) 1 stDel).2.fs := by
  have h := claim_C4 (fun _ => false) 1 stDel rfl ana rfl
  exact ⟨h.1, h.2.1, h.2.2.1,
    h.2.2.2 repWithFile (List.mem_cons_self repWithFile []) rfl
      "/uploads/a.png" rfl rfl rfl⟩

end DormPortal
